import Mathlib

/-!
Shallow embedding of the workflow orchestrator in `src/dashboard/server.py`
of MCP-hack-2025: the `WorkflowState` record, the broadcast helpers
(`send_log`, `update_step`, `add_modified_file`), the confirmation gate
(`wait_for_confirmation`), the step dispatcher (`execute_step`, with the
ten step bodies abstracted as external collaborators supplying their
broadcast effects and result), the engine loop (`run_workflow`), the
HTTP submission endpoint (`submit_requirement`) and the four WebSocket
control-message handlers.

Concurrency model: the server runs on asyncio's single-threaded
cooperative scheduler, so control messages are applied to the shared
state only at `await` suspension points.  The embedding makes those
interleavings explicit: `wait_for_confirmation` takes the list of
control messages processed while the awaiting-confirmation broadcast is
in flight and the list processed while the engine is blocked on the
event, and the loop takes one such pair per iteration.
-/

/-- A step's structured payload dict, rendered as an association list of
JSON key/value pairs (the orchestrator never inspects its contents). -/
def StepData : Type := List (String × String)

instance : DecidableEq StepData := by
  unfold StepData
  infer_instance

instance : Repr StepData := by
  unfold StepData
  infer_instance

instance : Inhabited StepData := ⟨([] : List (String × String))⟩

/-- An entry of `state.activity_log` (timestamps are not modelled). -/
structure LogEntry where
  message : String
  level : String
deriving DecidableEq, Repr

/-- An entry of `state.modified_files`. -/
structure FileChange where
  path : String
  status : String
  stats : String
deriving DecidableEq, Repr

/-- A message broadcast to every connected observer via
`ConnectionManager.broadcast`, tagged by its `type` field. -/
inductive Msg where
  | log (message : String) (level : String)
  | step_update (stepId : Int) (status : String) (details : String)
      (message : String) (data : Option StepData)
  | awaiting (msgType : String) (stepId : Int) (data : Option StepData)
  | workflow_error (message : String)
  | workflow_complete (message : String)
  | file_modified (path : String) (status : String) (stats : String)
deriving DecidableEq, Repr

/-- The single in-memory `WorkflowState` of `server.py` (observer
connections and the task handle are transport bookkeeping and are not
modelled; `confirmation_event` is the `asyncio.Event`'s set/clear bit). -/
structure WorkflowState where
  workflow_running : Bool
  paused : Bool
  confirmation_event : Bool
  requirement : String
  activity_log : List LogEntry
  modified_files : List FileChange
  current_step : Int
  step_data : List (Int × StepData)
deriving DecidableEq, Repr

/-- `WorkflowState.__init__`: the idle state created at process start. -/
def WorkflowState.init : WorkflowState :=
  { workflow_running := false
    paused := false
    confirmation_event := false
    requirement := ""
    activity_log := []
    modified_files := []
    current_step := 0
    step_data := [] }

/-- Python dict assignment `state.step_data[step_id] = data`: overwrite
the entry for the key if present, otherwise append it. -/
def dictSet (m : List (Int × StepData)) (k : Int) (v : StepData) :
    List (Int × StepData) :=
  if m.any (fun p => p.1 = k) then
    m.map (fun p => if p.1 = k then (k, v) else p)
  else
    m ++ [(k, v)]

/-- Python dict lookup `state.step_data.get(step_id)`. -/
def dictGet (m : List (Int × StepData)) (k : Int) : Option StepData :=
  (m.find? (fun p => p.1 = k)).map (fun p => p.2)

/-- `send_log(message, level)`: broadcast a `log` message and append it
to `state.activity_log`. -/
def send_log (s : WorkflowState) (message : String) (level : String) :
    WorkflowState × List Msg :=
  ({ s with activity_log := s.activity_log ++ [⟨message, level⟩] },
   [Msg.log message level])

/-- `update_step(step_id, status, details, message, data)`: store `data`
in `state.step_data` when it is a non-empty dict (Python `if data:` is
false for both `None` and `{}`), then broadcast a `step_update`. -/
def update_step (s : WorkflowState) (step_id : Int) (status : String)
    (details : String) (message : String) (data : Option StepData) :
    WorkflowState × List Msg :=
  let s' := match data with
    | some d => if d = ([] : List (String × String)) then s
        else { s with step_data := dictSet s.step_data step_id d }
    | none => s
  (s', [Msg.step_update step_id status details message data])

/-- `add_modified_file(path, status, stats)`: broadcast a
`file_modified` message and append to `state.modified_files`. -/
def add_modified_file (s : WorkflowState) (path : String) (status : String)
    (stats : String) : WorkflowState × List Msg :=
  ({ s with modified_files := s.modified_files ++ [⟨path, status, stats⟩] },
   [Msg.file_modified path status stats])

/-- The four inbound WebSocket control messages handled by
`websocket_endpoint`. -/
inductive Ctrl where
  | confirm
  | stop
  | restart (stepId : Int)
  | modify
deriving DecidableEq, Repr

/-- The `confirm_step` branch of `websocket_endpoint`: set the
confirmation event, unconditionally (`running` is not checked). -/
def handle_confirm (s : WorkflowState) : WorkflowState × List Msg :=
  ({ s with confirmation_event := true }, [])

/-- The `stop_workflow` branch: clear `workflow_running`, set `paused`,
set the event to unblock any waiter, and log a warning. -/
def handle_stop (s : WorkflowState) : WorkflowState × List Msg :=
  send_log
    { s with workflow_running := false, paused := true,
             confirmation_event := true }
    "Workflow stopped by user" "warning"

/-- The `restart_step` branch: set `current_step` to the requested id
(no range validation), set `workflow_running`, clear `paused`, set the
event, and log. -/
def handle_restart (stepId : Int) (s : WorkflowState) :
    WorkflowState × List Msg :=
  send_log
    { s with current_step := stepId, workflow_running := true,
             paused := false, confirmation_event := true }
    ("Restarting workflow from step " ++ toString stepId ++ "...") "info"

/-- The `modify_step` branch: clear both flags and set the event. -/
def handle_modify (s : WorkflowState) : WorkflowState × List Msg :=
  ({ s with workflow_running := false, paused := false,
            confirmation_event := true }, [])

/-- Dispatch one control message to its handler. -/
def applyCtrl (s : WorkflowState) : Ctrl → WorkflowState × List Msg
  | Ctrl.confirm => handle_confirm s
  | Ctrl.stop => handle_stop s
  | Ctrl.restart k => handle_restart k s
  | Ctrl.modify => handle_modify s

/-- Apply a sequence of inbound control messages in order, collecting
the broadcasts they emit. -/
def applyCtrls (s : WorkflowState) : List Ctrl → WorkflowState × List Msg
  | [] => (s, [])
  | c :: cs =>
    let (s1, ms1) := applyCtrl s c
    let (s2, ms2) := applyCtrls s1 cs
    (s2, ms1 ++ ms2)

/-- The errors `POST /api/submit-requirement` can raise: HTTP 400
"Workflow already running" and HTTP 400 "Requirement too short
(minimum 50 characters)". -/
inductive SubmitError where
  | alreadyRunning
  | tooShort
deriving DecidableEq, Repr

/-- Outcome of a submission: the HTTP result, the state as the handler
leaves it, and whether a `run_workflow` background task was created. -/
structure SubmitOutcome where
  result : Except SubmitError Unit
  state : WorkflowState
  taskStarted : Bool
deriving Repr

/-- `submit_requirement`: reject while a workflow is running, reject a
requirement shorter than 50 characters, else spawn `run_workflow` as a
background task.  The handler itself never mutates the state. -/
def submit_requirement (s : WorkflowState) (text : String) : SubmitOutcome :=
  if s.workflow_running then
    ⟨Except.error SubmitError.alreadyRunning, s, false⟩
  else if text.length < 50 then
    ⟨Except.error SubmitError.tooShort, s, false⟩
  else
    ⟨Except.ok (), s, true⟩

/-- `GET /api/workflow-status`. -/
def get_workflow_status (s : WorkflowState) : Bool × Int × String :=
  (s.workflow_running, s.current_step, s.requirement)

/-- The `msg_types` table in `wait_for_confirmation`, mapping a step id
to the frontend message type of its awaiting-confirmation broadcast,
with default `"step_complete"`. -/
def msg_types (step_id : Int) : String :=
  if step_id = 1 then "requirement_analyzed"
  else if step_id = 2 then "rag_completed"
  else if step_id = 3 then "finetuned_completed"
  else if step_id = 4 then "stories_crafted"
  else if step_id = 5 then "jira_created"
  else if step_id = 6 then "tasks_generated"
  else if step_id = 7 then "git_branch_created"
  else if step_id = 8 then "code_generated"
  else if step_id = 9 then "review_testing_done"
  else if step_id = 10 then "deployed"
  else "step_complete"

/-- How a call to `wait_for_confirmation` ends: the `await` returned and
the flag re-check passed (`returned`), the re-check raised
`asyncio.CancelledError` (`cancelled`), or the event was never set so
the task is still blocked on `event.wait()` (`parked`). -/
inductive WaitOutcome where
  | returned
  | cancelled
  | parked
deriving DecidableEq, Repr

/-- `wait_for_confirmation(step_id, data)`.  In the source the order of
operations is: broadcast the awaiting-confirmation message, then
`confirmation_event.clear()`, then `await confirmation_event.wait()`,
then re-check the flags (`not running` or `paused` raise cancellation).
`duringBroadcast` are the control messages the scheduler delivers while
the broadcast's sends are in flight (before the `clear()`);
`whileBlocked` are those delivered while the engine is blocked on the
event, before the waiter resumes. -/
def wait_for_confirmation (step_id : Int) (data : Option StepData)
    (s : WorkflowState) (duringBroadcast whileBlocked : List Ctrl) :
    WorkflowState × List Msg × WaitOutcome :=
  let awaitingMsg := Msg.awaiting (msg_types step_id) step_id data
  let (s1, ms1) := applyCtrls s duringBroadcast
  let s2 := { s1 with confirmation_event := false }
  let (s3, ms2) := applyCtrls s2 whileBlocked
  if s3.confirmation_event then
    if s3.workflow_running = false then
      (s3, awaitingMsg :: (ms1 ++ ms2), WaitOutcome.cancelled)
    else if s3.paused then
      (s3, awaitingMsg :: (ms1 ++ ms2), WaitOutcome.cancelled)
    else
      (s3, awaitingMsg :: (ms1 ++ ms2), WaitOutcome.returned)
  else
    (s3, awaitingMsg :: (ms1 ++ ms2), WaitOutcome.parked)

/-- Modelled from the spec: the gate order §4.3 describes — `clear()`
resets the event to unsignaled BEFORE the awaiting-confirmation message
is broadcast, so a confirm arriving while the broadcast is in flight is
not lost.  Used only to compare against `wait_for_confirmation`. -/
def wait_for_confirmation_specOrder (step_id : Int) (data : Option StepData)
    (s : WorkflowState) (duringBroadcast whileBlocked : List Ctrl) :
    WorkflowState × List Msg × WaitOutcome :=
  let awaitingMsg := Msg.awaiting (msg_types step_id) step_id data
  let s1 := { s with confirmation_event := false }
  let (s2, ms1) := applyCtrls s1 duringBroadcast
  let (s3, ms2) := applyCtrls s2 whileBlocked
  if s3.confirmation_event then
    if s3.workflow_running = false then
      (s3, awaitingMsg :: (ms1 ++ ms2), WaitOutcome.cancelled)
    else if s3.paused then
      (s3, awaitingMsg :: (ms1 ++ ms2), WaitOutcome.cancelled)
    else
      (s3, awaitingMsg :: (ms1 ++ ms2), WaitOutcome.returned)
  else
    (s3, awaitingMsg :: (ms1 ++ ms2), WaitOutcome.parked)

/-- One broadcast/state effect performed by a step body through the
helpers `send_log`, `update_step` and `add_modified_file`. -/
inductive Eff where
  | log (message : String) (level : String)
  | stepUpdate (stepId : Int) (status : String) (details : String)
      (message : String) (data : Option StepData)
  | fileModified (path : String) (status : String) (stats : String)
deriving DecidableEq, Repr

/-- Run one step-body effect through the corresponding helper. -/
def applyEff (s : WorkflowState) : Eff → WorkflowState × List Msg
  | Eff.log m l => send_log s m l
  | Eff.stepUpdate i st d m dat => update_step s i st d m dat
  | Eff.fileModified p st sta => add_modified_file s p st sta

/-- Run a step body's effects in order. -/
def applyEffs (s : WorkflowState) : List Eff → WorkflowState × List Msg
  | [] => (s, [])
  | e :: es =>
    let (s1, ms1) := applyEff s e
    let (s2, ms2) := applyEffs s1 es
    (s2, ms1 ++ ms2)

/-- What one of the ten step bodies in `execute_step` does: the
broadcasts/log appends/file records it performs through the helpers,
and either the returned payload dict or the exception it raises.  The
bodies call external services (RAG, LLM, JIRA), so they are abstracted
as collaborators (§6 of the design) supplying this record. -/
structure StepBody where
  effects : List Eff
  result : Except String StepData

/-- A step collaborator: what each step body does, as a function of the
step id and the state it reads (`state.requirement`,
`state.step_data`). -/
def StepOracle : Type := Int → WorkflowState → StepBody

/-- `execute_step(step_id)`: the `if step_id == 1 ... elif step_id == 10`
dispatch.  For ids 1..10 the matching branch runs (its body given by the
oracle); there is no `else` branch, so any other id falls through and
the function returns Python `None` with no effects. -/
def execute_step (oracle : StepOracle) (step_id : Int) (s : WorkflowState) :
    WorkflowState × List Msg × Except String (Option StepData) :=
  if 1 ≤ step_id ∧ step_id ≤ 10 then
    let b := oracle step_id s
    let (s1, ms) := applyEffs s b.effects
    match b.result with
    | Except.ok d => (s1, ms, Except.ok (some d))
    | Except.error e => (s1, ms, Except.error e)
  else
    (s, [], Except.ok none)

/-- The interleaving schedule for one iteration of the engine loop: the
control messages delivered during the awaiting-confirmation broadcast
and while the engine is blocked on the confirmation event. -/
structure IterSched where
  duringBroadcast : List Ctrl
  whileBlocked : List Ctrl

/-- How the `while` loop of `run_workflow` was left: its condition
became false (`condFail`), a step raised and the error branch broke out
(`stepError`), `wait_for_confirmation` raised `CancelledError` and the
`except` branch broke out (`cancelledBreak`), the engine is still
blocked inside `wait_for_confirmation` (`parked`), or the modelled
schedule ran out with the loop still live (`noSched`, a model artifact:
the code after the loop does not run in that case either). -/
inductive LoopExit where
  | condFail
  | stepError
  | cancelledBreak
  | parked
  | noSched
deriving DecidableEq, Repr

/-- The `while state.workflow_running and state.current_step <= 10` loop
of `run_workflow`, one `IterSched` per iteration: execute the current
step; on a raised exception broadcast a `step_update` error and a
`workflow_error`, set `running=false` and break; otherwise wait for
confirmation; on cancellation break; on normal return increment
`current_step` only if it still equals the id just executed. -/
def workflow_loop (oracle : StepOracle) :
    List IterSched → WorkflowState → WorkflowState × List Msg × LoopExit
  | sched, s =>
    if s.workflow_running ∧ s.current_step ≤ 10 then
      match sched with
      | [] => (s, [], LoopExit.noSched)
      | it :: rest =>
        let step_id := s.current_step
        let (s1, ms1, r) := execute_step oracle step_id s
        match r with
        | Except.error e =>
          let (s2, ms2) := update_step s1 step_id "error" "Failed" e none
          let s3 := { s2 with workflow_running := false }
          (s3, ms1 ++ ms2 ++ [Msg.workflow_error e], LoopExit.stepError)
        | Except.ok data =>
          let (s2, ms2, w) :=
            wait_for_confirmation step_id data s1 it.duringBroadcast
              it.whileBlocked
          match w with
          | WaitOutcome.parked => (s2, ms1 ++ ms2, LoopExit.parked)
          | WaitOutcome.cancelled => (s2, ms1 ++ ms2, LoopExit.cancelledBreak)
          | WaitOutcome.returned =>
            let s3 := if s2.current_step = step_id then
                { s2 with current_step := s2.current_step + 1 }
              else s2
            let (s4, ms3, ex) := workflow_loop oracle rest s3
            (s4, ms1 ++ ms2 ++ ms3, ex)
    else
      (s, [], LoopExit.condFail)

/-- The code of `run_workflow` after the loop: if `current_step > 10`
broadcast `workflow_complete`, log success, and reset
`workflow_running=false` and `current_step=0`; then the `finally`
block clears `workflow_running` unless `paused` is set. -/
def workflow_post (s : WorkflowState) : WorkflowState × List Msg :=
  let (s1, ms1) :=
    if s.current_step > 10 then
      let m := Msg.workflow_complete "Workflow completed successfully!"
      let (sa, ml) := send_log s "🎉 Workflow completed successfully!" "success"
      ({ sa with workflow_running := false, current_step := 0 }, m :: ml)
    else (s, [])
  if s1.paused = false then
    ({ s1 with workflow_running := false }, ms1)
  else (s1, ms1)

/-- The engine coroutine from a mid-run configuration: run the loop,
then — unless the engine is still blocked (`parked`) or the modelled
schedule ran out (`noSched`) — the post-loop and `finally` code. -/
def resume_run (oracle : StepOracle) (sched : List IterSched)
    (s : WorkflowState) : WorkflowState × List Msg × LoopExit :=
  let (s1, ms1, ex) := workflow_loop oracle sched s
  match ex with
  | LoopExit.parked => (s1, ms1, ex)
  | LoopExit.noSched => (s1, ms1, ex)
  | _ =>
    let (s2, ms2) := workflow_post s1
    (s2, ms1 ++ ms2, ex)

/-- The first lines of `run_workflow(requirement)`: set
`workflow_running=true`, `paused=false`, store the requirement, and set
`current_step` to 1 only when it is 0 (a restart may have left it
elsewhere).  Nothing else in the state is touched. -/
def run_workflow_init (requirement : String) (s : WorkflowState) :
    WorkflowState :=
  let s0 := { s with workflow_running := true, paused := false,
                     requirement := requirement }
  if s0.current_step = 0 then { s0 with current_step := 1 } else s0

/-- `run_workflow(requirement)`: initialize the run, then run the loop
and the post-loop code. -/
def run_workflow (oracle : StepOracle) (sched : List IterSched)
    (requirement : String) (s : WorkflowState) :
    WorkflowState × List Msg × LoopExit :=
  resume_run oracle sched (run_workflow_init requirement s)

/-! ### Helper functions and lemmas shared by the verification -/

/-- The broadcast a single step-body effect emits (it does not depend on
the state the effect is applied to). -/
def msgOfEff : Eff → Msg
  | Eff.log m l => Msg.log m l
  | Eff.stepUpdate i st d m dat => Msg.step_update i st d m dat
  | Eff.fileModified p st sta => Msg.file_modified p st sta

/-- The step id a broadcast belongs to, if any: `step_update` and the
awaiting-confirmation message carry a `stepId`; `log`, `workflow_error`,
`workflow_complete` and `file_modified` belong to no step. -/
def msgStep : Msg → Option Int
  | Msg.step_update i _ _ _ _ => some i
  | Msg.awaiting _ i _ => some i
  | _ => none

/-- Whether a control message is a `restart_step`. -/
def isRestart : Ctrl → Bool
  | Ctrl.restart _ => true
  | _ => false

/-- Whether a broadcast is the in-progress `step_update` of step `j`. -/
def isInProgressFor (j : Int) : Msg → Bool
  | Msg.step_update i st _ _ _ => i = j && st = "in-progress"
  | _ => false

/-- A sample step collaborator used to instantiate theorems on concrete
inputs: step `i`'s body broadcasts its in-progress and complete updates,
stores a one-entry payload, and returns it. -/
def sampleOracle : StepOracle := fun i _ =>
  { effects := [Eff.stepUpdate i "in-progress" "" "working" none,
                Eff.stepUpdate i "complete" "done" "ok"
                  (some [("step", "x")])],
    result := Except.ok [("step", "x")] }

/-- A sample step collaborator whose body broadcasts its in-progress
update and then raises an exception. -/
def errorOracle : StepOracle := fun i _ =>
  { effects := [Eff.stepUpdate i "in-progress" "" "working" none],
    result := Except.error "boom" }

/-- The state of the engine at the start of the loop iteration for step
1 of an active run. -/
def waitingState : WorkflowState :=
  { WorkflowState.init with workflow_running := true, current_step := 1 }

/-- The state of the engine at the start of the loop iteration for step
10 (the last step) of an active run. -/
def step10State : WorkflowState :=
  { WorkflowState.init with workflow_running := true, current_step := 10 }

/-- The computation of step 1 by the sample collaborator, used to spell
out concrete witnesses. -/
def c5exec : WorkflowState × List Msg × Except String (Option StepData) :=
  execute_step sampleOracle 1 waitingState

/-- The confirmation wait after `c5exec`, released by a plain confirm. -/
def c5wait : WorkflowState × List Msg × WaitOutcome :=
  wait_for_confirmation 1 (some [("step", "x")]) c5exec.1 [] [Ctrl.confirm]

/-- The state the loop advances to after `c5wait`. -/
def c5next : WorkflowState :=
  { c5wait.1 with current_step := c5wait.1.current_step + 1 }

theorem applyEff_msg (s : WorkflowState) (e : Eff) :
    (applyEff s e).2 = [msgOfEff e] := by
  cases e <;> simp [applyEff, msgOfEff, send_log, update_step, add_modified_file]

theorem applyEffs_msgs (es : List Eff) (s : WorkflowState) :
    (applyEffs s es).2 = es.map msgOfEff := by
  induction es generalizing s with
  | nil => simp [applyEffs]
  | cons e es ih => simp [applyEffs, applyEff_msg, ih]

theorem applyEff_flags (s : WorkflowState) (e : Eff) :
    (applyEff s e).1.workflow_running = s.workflow_running ∧
    (applyEff s e).1.paused = s.paused ∧
    (applyEff s e).1.current_step = s.current_step ∧
    (applyEff s e).1.confirmation_event = s.confirmation_event ∧
    (applyEff s e).1.requirement = s.requirement := by
  cases e with
  | log m l => simp [applyEff, send_log]
  | stepUpdate i st d m dat =>
    cases dat with
    | none => simp [applyEff, update_step]
    | some v =>
      by_cases hv : v = ([] : List (String × String)) <;>
        simp [applyEff, update_step, hv]
  | fileModified p st sta => simp [applyEff, add_modified_file]

theorem applyEffs_flags (es : List Eff) (s : WorkflowState) :
    (applyEffs s es).1.workflow_running = s.workflow_running ∧
    (applyEffs s es).1.paused = s.paused ∧
    (applyEffs s es).1.current_step = s.current_step ∧
    (applyEffs s es).1.confirmation_event = s.confirmation_event ∧
    (applyEffs s es).1.requirement = s.requirement := by
  induction es generalizing s with
  | nil => simp [applyEffs]
  | cons e es ih =>
    have he := applyEff_flags s e
    have hi := ih (applyEff s e).1
    simp only [applyEffs]
    exact ⟨hi.1.trans he.1, hi.2.1.trans he.2.1, hi.2.2.1.trans he.2.2.1,
      hi.2.2.2.1.trans he.2.2.2.1, hi.2.2.2.2.trans he.2.2.2.2⟩

theorem applyCtrl_msgs_none (s : WorkflowState) (c : Ctrl) :
    ∀ m ∈ (applyCtrl s c).2, msgStep m = none := by
  cases c <;>
    simp [applyCtrl, handle_confirm, handle_stop, handle_restart,
      handle_modify, send_log, msgStep]

theorem applyCtrls_msgs_none (cs : List Ctrl) (s : WorkflowState) :
    ∀ m ∈ (applyCtrls s cs).2, msgStep m = none := by
  induction cs generalizing s with
  | nil => simp [applyCtrls]
  | cons c cs ih =>
    intro m hm
    simp only [applyCtrls, List.mem_append] at hm
    rcases hm with hm | hm
    · exact applyCtrl_msgs_none s c m hm
    · exact ih _ m hm

theorem applyCtrl_keeps (s : WorkflowState) (c : Ctrl) :
    (applyCtrl s c).1.step_data = s.step_data ∧
    (applyCtrl s c).1.requirement = s.requirement ∧
    (applyCtrl s c).1.modified_files = s.modified_files := by
  cases c <;>
    simp [applyCtrl, handle_confirm, handle_stop, handle_restart,
      handle_modify, send_log]

theorem applyCtrls_keeps (cs : List Ctrl) (s : WorkflowState) :
    (applyCtrls s cs).1.step_data = s.step_data ∧
    (applyCtrls s cs).1.requirement = s.requirement ∧
    (applyCtrls s cs).1.modified_files = s.modified_files := by
  induction cs generalizing s with
  | nil => simp [applyCtrls]
  | cons c cs ih =>
    have hc := applyCtrl_keeps s c
    have hi := ih (applyCtrl s c).1
    simp only [applyCtrls]
    exact ⟨hi.1.trans hc.1, hi.2.1.trans hc.2.1, hi.2.2.trans hc.2.2⟩

theorem applyCtrl_no_restart_step (s : WorkflowState) (c : Ctrl)
    (h : isRestart c = false) :
    (applyCtrl s c).1.current_step = s.current_step := by
  cases c with
  | confirm => simp [applyCtrl, handle_confirm]
  | stop => simp [applyCtrl, handle_stop, send_log]
  | restart k => simp [isRestart] at h
  | modify => simp [applyCtrl, handle_modify]

theorem applyCtrls_no_restart_step (cs : List Ctrl) (s : WorkflowState)
    (h : ∀ c ∈ cs, isRestart c = false) :
    (applyCtrls s cs).1.current_step = s.current_step := by
  induction cs generalizing s with
  | nil => simp [applyCtrls]
  | cons c cs ih =>
    simp only [applyCtrls]
    have h1 := applyCtrl_no_restart_step s c (h c (by simp))
    have h2 := ih (applyCtrl s c).1 (fun c' hc' => h c' (by simp [hc']))
    exact h2.trans h1

theorem applyCtrls_snoc (cs : List Ctrl) (c : Ctrl) (s : WorkflowState) :
    applyCtrls s (cs ++ [c]) =
      ((applyCtrl (applyCtrls s cs).1 c).1,
       (applyCtrls s cs).2 ++ (applyCtrl (applyCtrls s cs).1 c).2) := by
  induction cs generalizing s with
  | nil => simp [applyCtrls]
  | cons c' cs ih => simp [applyCtrls, ih]

/-! ### C1 -/

/-- C1: while a run is active (`workflow_running = true`) every
submission fails with the already-running error; otherwise a submission
whose requirement text is shorter than the 50-character minimum fails
with the validation error; in both failure cases the `WorkflowState` is
returned unchanged and no `run_workflow` task is started. -/
theorem submitRequirement_failures (s : WorkflowState) (text : String) :
    (s.workflow_running = true →
      submit_requirement s text =
        ⟨Except.error SubmitError.alreadyRunning, s, false⟩) ∧
    (s.workflow_running = false → text.length < 50 →
      submit_requirement s text =
        ⟨Except.error SubmitError.tooShort, s, false⟩) := by
  constructor
  · intro h
    simp [submit_requirement, h]
  · intro h hl
    simp [submit_requirement, h, hl]

/-- C1 witness: the failures at two concrete submissions. -/
theorem submitRequirement_failures_witness :
    submit_requirement { WorkflowState.init with workflow_running := true }
        "short requirement" =
      ⟨Except.error SubmitError.alreadyRunning,
       { WorkflowState.init with workflow_running := true }, false⟩ ∧
    submit_requirement WorkflowState.init "short requirement" =
      ⟨Except.error SubmitError.tooShort, WorkflowState.init, false⟩ :=
  ⟨(submitRequirement_failures _ "short requirement").1 rfl,
   (submitRequirement_failures WorkflowState.init "short requirement").2
     rfl (by decide)⟩

/-! ### C2 -/

/-- C2 counterexample: a `restart_step` naming step 99 — outside 1..10 —
does not fail with an invalid-step error and does not leave the state
unchanged: the handler has no validation and sets `current_step := 99`
(and `workflow_running := true`). -/
theorem restartStep_no_validation_cex :
    (handle_restart 99 WorkflowState.init).1.current_step = 99 ∧
    (handle_restart 99 WorkflowState.init).1 ≠ WorkflowState.init := by
  refine ⟨rfl, ?_⟩
  decide

/-- C2 amended: `restart_step` performs no range validation.  For every
target id — inside or outside 1..10 — it sets `current_step` to the id,
sets `running`, clears `paused` and signals the confirmation gate,
leaving the requirement, step outputs and modified-file records
unchanged (it also appends one log entry). -/
theorem restartStep_sets_unconditionally (s : WorkflowState) (k : Int) :
    (handle_restart k s).1.current_step = k ∧
    (handle_restart k s).1.workflow_running = true ∧
    (handle_restart k s).1.paused = false ∧
    (handle_restart k s).1.confirmation_event = true ∧
    (handle_restart k s).1.requirement = s.requirement ∧
    (handle_restart k s).1.step_data = s.step_data ∧
    (handle_restart k s).1.modified_files = s.modified_files := by
  simp [handle_restart, send_log]

/-! ### C3 -/

/-- C3 counterexample: `confirm_step` received while `running = false`
is not a no-op on the `WorkflowState`: the handler signals the gate
without checking `running`, so the confirmation event flips from unset
to set. -/
theorem confirmStep_not_noop_cex :
    WorkflowState.init.workflow_running = false ∧
    (handle_confirm WorkflowState.init).1 ≠ WorkflowState.init := by
  refine ⟨rfl, ?_⟩
  decide

/-- C3 amended: `confirm_step` received while `running = false` emits no
broadcast and leaves every component of the state unchanged except the
confirmation gate, which it signals unconditionally — the handler does
not check `running` before calling `event.set()`. -/
theorem confirmStep_only_signals (s : WorkflowState)
    (h : s.workflow_running = false) :
    handle_confirm s = ({ s with confirmation_event := true }, []) ∧
    (handle_confirm s).1.workflow_running = false :=
  ⟨rfl, by simp [handle_confirm, h]⟩

/-- C3 witness: the amended behavior at the idle state. -/
theorem confirmStep_only_signals_witness :
    handle_confirm WorkflowState.init =
      ({ WorkflowState.init with confirmation_event := true }, []) ∧
    (handle_confirm WorkflowState.init).1.workflow_running = false :=
  confirmStep_only_signals WorkflowState.init rfl

/-! ### C9 -/

/-- C9 counterexample: dispatching step id 11 — outside the declared
range 1..10 — does not fail with an unknown-step error: `execute_step`
has no `else` branch, so the call falls through every `elif`, performs
no broadcast, and returns Python `None` successfully. -/
theorem executeStep_out_of_range_cex :
    execute_step sampleOracle 11 WorkflowState.init =
      (WorkflowState.init, [], Except.ok none) := by
  have h : ¬ ((1 : Int) ≤ 11 ∧ (11 : Int) ≤ 10) := by omega
  simp [execute_step, h]

/-- C9 amended: for every step id outside 1..10 the step dispatch does
not fail: it returns `None` with no broadcasts and no state change
(there is no unknown-step error in the code). -/
theorem executeStep_out_of_range (oracle : StepOracle) (step_id : Int)
    (s : WorkflowState) (h : step_id < 1 ∨ 10 < step_id) :
    execute_step oracle step_id s = (s, [], Except.ok none) := by
  have h' : ¬ (1 ≤ step_id ∧ step_id ≤ 10) := by omega
  simp [execute_step, h']

/-- C9 witness: the amended behavior at step id 0. -/
theorem executeStep_out_of_range_witness :
    execute_step sampleOracle 0 WorkflowState.init =
      (WorkflowState.init, [], Except.ok none) :=
  executeStep_out_of_range sampleOracle 0 WorkflowState.init (by omega)

/-! ### C8 -/

/-- C8 counterexample: the gate is not reset to unsignaled before the
awaiting-confirmation message is broadcast — the code broadcasts first
and calls `clear()` only afterwards.  Observable consequence at a
concrete input: a confirm delivered while the broadcast is in flight is
erased by the subsequent `clear()`, so the engine stays parked, whereas
under the claimed order (`wait_for_confirmation_specOrder`) the same
schedule returns normally. -/
theorem gate_cleared_after_broadcast_cex :
    (wait_for_confirmation 1 none waitingState [Ctrl.confirm] []).2.2 =
      WaitOutcome.parked ∧
    (wait_for_confirmation_specOrder 1 none waitingState
        [Ctrl.confirm] []).2.2 = WaitOutcome.returned := by
  constructor <;> rfl

/-- C8 amended: in every execution of `wait_for_confirmation` the
awaiting-confirmation message is broadcast first, and only then is the
gate reset to unsignaled before the task blocks; the task stays parked
exactly until the event is signalled, and after waking the flags are
re-checked — if `running` is false or `paused` is true the wait raises
cancellation, and otherwise it returns.  In all cases `step_data` is
left intact. -/
theorem wait_for_confirmation_spec (step_id : Int) (data : Option StepData)
    (s s' : WorkflowState) (db wb : List Ctrl) (ms : List Msg)
    (w : WaitOutcome)
    (h : wait_for_confirmation step_id data s db wb = (s', ms, w)) :
    s'.step_data = s.step_data ∧
    ms.head? = some (Msg.awaiting (msg_types step_id) step_id data) ∧
    (w = WaitOutcome.parked ↔ s'.confirmation_event = false) ∧
    (s'.confirmation_event = true → s'.workflow_running = false →
      w = WaitOutcome.cancelled) ∧
    (s'.confirmation_event = true → s'.paused = true →
      w = WaitOutcome.cancelled) ∧
    (s'.confirmation_event = true → s'.workflow_running = true →
      s'.paused = false → w = WaitOutcome.returned) := by
  rcases h1 : applyCtrls s db with ⟨s1, ms1⟩
  rcases h2 : applyCtrls { s1 with confirmation_event := false } wb
    with ⟨s3, ms2⟩
  have k1 := (applyCtrls_keeps db s).1
  have k2 := (applyCtrls_keeps wb { s1 with confirmation_event := false }).1
  rw [h1] at k1
  rw [h2] at k2
  have hsd : s3.step_data = s.step_data := k2.trans k1
  simp only [wait_for_confirmation, h1, h2] at h
  split_ifs at h with hev hr hp
  · simp only [Prod.mk.injEq] at h
    obtain ⟨rfl, rfl, rfl⟩ := h
    refine ⟨hsd, rfl, ?_, ?_, ?_, ?_⟩ <;> simp_all
  · simp only [Prod.mk.injEq] at h
    obtain ⟨rfl, rfl, rfl⟩ := h
    refine ⟨hsd, rfl, ?_, ?_, ?_, ?_⟩ <;> simp_all
  · simp only [Prod.mk.injEq] at h
    obtain ⟨rfl, rfl, rfl⟩ := h
    refine ⟨hsd, rfl, ?_, ?_, ?_, ?_⟩ <;> simp_all
  · simp only [Prod.mk.injEq] at h
    obtain ⟨rfl, rfl, rfl⟩ := h
    refine ⟨hsd, rfl, ?_, ?_, ?_, ?_⟩ <;> simp_all

/-- C8 witness: the amended behavior at a concrete wait whose blocked
phase receives a stop. -/
theorem wait_for_confirmation_spec_witness :
    waitingState.step_data = waitingState.step_data ∧
    (wait_for_confirmation 1 none waitingState [] [Ctrl.stop]).2.1.head? =
      some (Msg.awaiting (msg_types 1) 1 none) ∧
    ((wait_for_confirmation 1 none waitingState [] [Ctrl.stop]).2.2 =
        WaitOutcome.parked ↔
      (wait_for_confirmation 1 none waitingState [] [Ctrl.stop]).1.confirmation_event
        = false) ∧
    ((wait_for_confirmation 1 none waitingState [] [Ctrl.stop]).1.confirmation_event
        = true →
      (wait_for_confirmation 1 none waitingState [] [Ctrl.stop]).1.workflow_running
        = false →
      (wait_for_confirmation 1 none waitingState [] [Ctrl.stop]).2.2 =
        WaitOutcome.cancelled) ∧
    ((wait_for_confirmation 1 none waitingState [] [Ctrl.stop]).1.confirmation_event
        = true →
      (wait_for_confirmation 1 none waitingState [] [Ctrl.stop]).1.paused = true →
      (wait_for_confirmation 1 none waitingState [] [Ctrl.stop]).2.2 =
        WaitOutcome.cancelled) ∧
    ((wait_for_confirmation 1 none waitingState [] [Ctrl.stop]).1.confirmation_event
        = true →
      (wait_for_confirmation 1 none waitingState [] [Ctrl.stop]).1.workflow_running
        = true →
      (wait_for_confirmation 1 none waitingState [] [Ctrl.stop]).1.paused = false →
      (wait_for_confirmation 1 none waitingState [] [Ctrl.stop]).2.2 =
        WaitOutcome.returned) := by
  have h := wait_for_confirmation_spec 1 none waitingState
    (wait_for_confirmation 1 none waitingState [] [Ctrl.stop]).1 [] [Ctrl.stop]
    (wait_for_confirmation 1 none waitingState [] [Ctrl.stop]).2.1
    (wait_for_confirmation 1 none waitingState [] [Ctrl.stop]).2.2 rfl
  exact ⟨rfl, h.2.1, h.2.2.1, h.2.2.2.1, h.2.2.2.2.1, h.2.2.2.2.2⟩

/-! ### Engine-loop helper lemmas -/

theorem execute_step_in_range (oracle : StepOracle) (i : Int)
    (s : WorkflowState) (h : 1 ≤ i ∧ i ≤ 10) :
    execute_step oracle i s =
      ((applyEffs s (oracle i s).effects).1,
       (oracle i s).effects.map msgOfEff,
       match (oracle i s).result with
       | Except.ok d => Except.ok (some d)
       | Except.error e => Except.error e) := by
  unfold execute_step
  rw [if_pos h]
  rcases hr : (oracle i s).result with e | d <;> simp [hr, applyEffs_msgs]

theorem execute_step_flags (oracle : StepOracle) (i : Int)
    (s : WorkflowState) :
    (execute_step oracle i s).1.workflow_running = s.workflow_running ∧
    (execute_step oracle i s).1.paused = s.paused ∧
    (execute_step oracle i s).1.current_step = s.current_step ∧
    (execute_step oracle i s).1.confirmation_event = s.confirmation_event ∧
    (execute_step oracle i s).1.requirement = s.requirement := by
  unfold execute_step
  split_ifs with h
  · rcases hr : (oracle i s).result with e | d <;>
      simp [hr, applyEffs_flags]
  · simp

theorem workflow_loop_error (oracle : StepOracle) (it : IterSched)
    (rest : List IterSched) (s s1 : WorkflowState) (ms1 : List Msg)
    (e : String) (hrun : s.workflow_running = true)
    (hle : s.current_step ≤ 10)
    (hE : execute_step oracle s.current_step s = (s1, ms1, Except.error e)) :
    workflow_loop oracle (it :: rest) s =
      ({ s1 with workflow_running := false },
       ms1 ++ [Msg.step_update s.current_step "error" "Failed" e none] ++
         [Msg.workflow_error e],
       LoopExit.stepError) := by
  rw [workflow_loop.eq_def]
  simp only [hrun, hle, and_true, if_true, hE, update_step]

theorem workflow_loop_cancel (oracle : StepOracle) (it : IterSched)
    (rest : List IterSched) (s s1 s2 : WorkflowState) (ms1 ms2 : List Msg)
    (d : Option StepData) (hrun : s.workflow_running = true)
    (hle : s.current_step ≤ 10)
    (hE : execute_step oracle s.current_step s = (s1, ms1, Except.ok d))
    (hW : wait_for_confirmation s.current_step d s1 it.duringBroadcast
        it.whileBlocked = (s2, ms2, WaitOutcome.cancelled)) :
    workflow_loop oracle (it :: rest) s =
      (s2, ms1 ++ ms2, LoopExit.cancelledBreak) := by
  rw [workflow_loop.eq_def]
  simp only [hrun, hle, and_true, if_true, hE, hW]

theorem workflow_loop_advance (oracle : StepOracle) (it : IterSched)
    (rest : List IterSched) (s s1 s2 : WorkflowState) (ms1 ms2 : List Msg)
    (d : Option StepData) (hrun : s.workflow_running = true)
    (hle : s.current_step ≤ 10)
    (hE : execute_step oracle s.current_step s = (s1, ms1, Except.ok d))
    (hW : wait_for_confirmation s.current_step d s1 it.duringBroadcast
        it.whileBlocked = (s2, ms2, WaitOutcome.returned)) :
    workflow_loop oracle (it :: rest) s =
      ((workflow_loop oracle rest
          (if s2.current_step = s.current_step then
            { s2 with current_step := s2.current_step + 1 }
          else s2)).1,
       ms1 ++ ms2 ++ (workflow_loop oracle rest
          (if s2.current_step = s.current_step then
            { s2 with current_step := s2.current_step + 1 }
          else s2)).2.1,
       (workflow_loop oracle rest
          (if s2.current_step = s.current_step then
            { s2 with current_step := s2.current_step + 1 }
          else s2)).2.2) := by
  rw [workflow_loop.eq_def]
  simp only [hrun, hle, and_true, if_true, hE, hW]

theorem workflow_post_complete (s : WorkflowState)
    (h : 10 < s.current_step) :
    workflow_post s =
      ({ s with workflow_running := false, current_step := 0,
                activity_log := s.activity_log ++
                  [⟨"🎉 Workflow completed successfully!", "success"⟩] },
       [Msg.workflow_complete "Workflow completed successfully!",
        Msg.log "🎉 Workflow completed successfully!" "success"]) := by
  unfold workflow_post send_log
  simp only [gt_iff_lt, h, if_true]
  by_cases hp : s.paused = false <;> simp [hp]

theorem workflow_post_incomplete (s : WorkflowState)
    (h : ¬ 10 < s.current_step) (hrun : s.workflow_running = false) :
    workflow_post s = (s, []) := by
  rcases s with ⟨r, p, c, q, l, f, cs, sd⟩
  simp only at h hrun
  subst hrun
  unfold workflow_post
  simp only [gt_iff_lt, h, if_false]
  by_cases hp : p = false <;> simp [hp]

theorem resume_run_eq (oracle : StepOracle) (sched : List IterSched)
    (s s1 : WorkflowState) (ms1 : List Msg) (ex : LoopExit)
    (h : workflow_loop oracle sched s = (s1, ms1, ex))
    (h1 : ex ≠ LoopExit.parked) (h2 : ex ≠ LoopExit.noSched) :
    resume_run oracle sched s =
      ((workflow_post s1).1, ms1 ++ (workflow_post s1).2, ex) := by
  unfold resume_run
  rw [h]
  cases ex <;> simp_all

/-! ### C4 -/

/-- C4: when the current step's body raises, the engine loop catches the
exception at the step boundary, broadcasts the step's error update and a
terminal `workflow_error`, sets `running` to false, and ends the loop
with `current_step` not incremented; nothing further is executed (no
automatic retry) — the emitted message sequence ends at the
`workflow_error`. -/
theorem stepError_terminal (oracle : StepOracle) (it : IterSched)
    (rest : List IterSched) (s : WorkflowState) (e : String)
    (hrun : s.workflow_running = true) (h1 : 1 ≤ s.current_step)
    (hle : s.current_step ≤ 10)
    (herr : (oracle s.current_step s).result = Except.error e) :
    resume_run oracle (it :: rest) s =
      ({ (applyEffs s (oracle s.current_step s).effects).1 with
           workflow_running := false },
       ((oracle s.current_step s).effects.map msgOfEff) ++
         [Msg.step_update s.current_step "error" "Failed" e none] ++
         [Msg.workflow_error e],
       LoopExit.stepError) ∧
    (resume_run oracle (it :: rest) s).1.current_step = s.current_step := by
  have hE := execute_step_in_range oracle s.current_step s ⟨h1, hle⟩
  rw [herr] at hE
  have hloop := workflow_loop_error oracle it rest s _ _ e hrun hle hE
  have hcs : (applyEffs s (oracle s.current_step s).effects).1.current_step
      = s.current_step := (applyEffs_flags _ _).2.2.1
  have hns : ¬ 10 <
      ({ (applyEffs s (oracle s.current_step s).effects).1 with
           workflow_running := false } : WorkflowState).current_step := by
    dsimp only
    rw [hcs]
    omega
  have hpost := workflow_post_incomplete
    { (applyEffs s (oracle s.current_step s).effects).1 with
        workflow_running := false } hns rfl
  have hrr := resume_run_eq oracle (it :: rest) s _ _ _ hloop
    (by simp) (by simp)
  rw [hpost] at hrr
  constructor
  · rw [hrr]
    simp
  · rw [hrr]
    dsimp only
    rw [hcs]

/-- C4 witness: a concrete run whose first step raises "boom". -/
theorem stepError_terminal_witness :
    resume_run errorOracle [⟨[], []⟩] waitingState =
      ({ waitingState with workflow_running := false },
       [Msg.step_update 1 "in-progress" "" "working" none,
        Msg.step_update 1 "error" "Failed" "boom" none,
        Msg.workflow_error "boom"],
       LoopExit.stepError) ∧
    (resume_run errorOracle [⟨[], []⟩] waitingState).1.current_step = 1 := by
  have h := stepError_terminal errorOracle ⟨[], []⟩ [] waitingState "boom"
    rfl (by decide) (by decide) rfl
  exact ⟨h.1.trans (by decide), h.2.trans (by decide)⟩

/-! ### C5 -/

/-- C5: in every iteration of the engine loop, after the confirmation
wait returns normally the loop continues with `current_step` incremented
by one exactly when it still equals the step id just executed, and from
its unincremented (redirected) value otherwise; and whenever the loop
exits — other than by remaining blocked — with `current_step > 10`, the
run broadcasts `workflow_complete` and resets `running` to false and
`current_step` to 0. -/
theorem loop_advance_and_complete :
    (∀ (oracle : StepOracle) (it : IterSched) (rest : List IterSched)
       (s s1 s2 : WorkflowState) (ms1 ms2 : List Msg) (d : Option StepData),
       s.workflow_running = true → s.current_step ≤ 10 →
       execute_step oracle s.current_step s = (s1, ms1, Except.ok d) →
       wait_for_confirmation s.current_step d s1 it.duringBroadcast
           it.whileBlocked = (s2, ms2, WaitOutcome.returned) →
       ((s2.current_step = s.current_step →
          workflow_loop oracle (it :: rest) s =
            ((workflow_loop oracle rest
                { s2 with current_step := s2.current_step + 1 }).1,
             ms1 ++ ms2 ++ (workflow_loop oracle rest
                { s2 with current_step := s2.current_step + 1 }).2.1,
             (workflow_loop oracle rest
                { s2 with current_step := s2.current_step + 1 }).2.2)) ∧
        (s2.current_step ≠ s.current_step →
          workflow_loop oracle (it :: rest) s =
            ((workflow_loop oracle rest s2).1,
             ms1 ++ ms2 ++ (workflow_loop oracle rest s2).2.1,
             (workflow_loop oracle rest s2).2.2)))) ∧
    (∀ (oracle : StepOracle) (sched : List IterSched) (s s1 : WorkflowState)
       (ms1 : List Msg) (ex : LoopExit),
       workflow_loop oracle sched s = (s1, ms1, ex) →
       ex ≠ LoopExit.parked → ex ≠ LoopExit.noSched →
       10 < s1.current_step →
       (resume_run oracle sched s).1.workflow_running = false ∧
       (resume_run oracle sched s).1.current_step = 0 ∧
       Msg.workflow_complete "Workflow completed successfully!" ∈
         (resume_run oracle sched s).2.1) := by
  constructor
  · intro oracle it rest s s1 s2 ms1 ms2 d hrun hle hE hW
    have h := workflow_loop_advance oracle it rest s s1 s2 ms1 ms2 d
      hrun hle hE hW
    constructor
    · intro hc
      rw [h]
      simp [hc]
    · intro hc
      rw [h]
      simp [hc]
  · intro oracle sched s s1 ms1 ex h h1 h2 hgt
    have hrr := resume_run_eq oracle sched s s1 ms1 ex h h1 h2
    have hpost := workflow_post_complete s1 hgt
    rw [hpost] at hrr
    rw [hrr]
    refine ⟨rfl, rfl, ?_⟩
    simp

/-- C5 witness: the advancement equation at a concrete confirmed
iteration, and the completion behavior of a concrete run that finishes
step 10. -/
theorem loop_advance_and_complete_witness :
    (workflow_loop sampleOracle [⟨[], [Ctrl.confirm]⟩] waitingState =
      ((workflow_loop sampleOracle [] c5next).1,
       c5exec.2.1 ++ c5wait.2.1 ++ (workflow_loop sampleOracle [] c5next).2.1,
       (workflow_loop sampleOracle [] c5next).2.2)) ∧
    ((resume_run sampleOracle [⟨[], [Ctrl.confirm]⟩] step10State).1.workflow_running
        = false ∧
     (resume_run sampleOracle [⟨[], [Ctrl.confirm]⟩] step10State).1.current_step
        = 0 ∧
     Msg.workflow_complete "Workflow completed successfully!" ∈
       (resume_run sampleOracle [⟨[], [Ctrl.confirm]⟩] step10State).2.1) := by
  constructor
  · exact (loop_advance_and_complete.1 sampleOracle ⟨[], [Ctrl.confirm]⟩ []
      waitingState c5exec.1 c5wait.1 c5exec.2.1 c5wait.2.1
      (some [("step", "x")]) rfl (by decide) rfl rfl).1 (by decide)
  · exact loop_advance_and_complete.2 sampleOracle [⟨[], [Ctrl.confirm]⟩]
      step10State
      (workflow_loop sampleOracle [⟨[], [Ctrl.confirm]⟩] step10State).1
      (workflow_loop sampleOracle [⟨[], [Ctrl.confirm]⟩] step10State).2.1
      (workflow_loop sampleOracle [⟨[], [Ctrl.confirm]⟩] step10State).2.2
      rfl (by decide) (by decide) (by decide)

/-! ### C6 -/

/-- C6: when the engine is waiting for confirmation at step k of an
active run and the waiter is released by a `stop_workflow` (no restart
was delivered in between), the wait raises cancellation and the loop
exits: afterwards `running` is false, `paused` is true, `current_step`
is still k, and — provided step k's own body mentions only step k — no
broadcast belonging to step k+1 is ever sent in that run. -/
theorem stop_while_waiting (oracle : StepOracle) (it : IterSched)
    (rest : List IterSched) (s : WorkflowState) (d : StepData)
    (pre : List Ctrl)
    (hrun : s.workflow_running = true) (h1 : 1 ≤ s.current_step)
    (hle : s.current_step ≤ 10)
    (hres : (oracle s.current_step s).result = Except.ok d)
    (hwb : it.whileBlocked = pre ++ [Ctrl.stop])
    (hdb : ∀ c ∈ it.duringBroadcast, isRestart c = false)
    (hpre : ∀ c ∈ pre, isRestart c = false)
    (heff : ∀ e ∈ (oracle s.current_step s).effects,
      msgStep (msgOfEff e) ≠ some (s.current_step + 1)) :
    (resume_run oracle (it :: rest) s).2.2 = LoopExit.cancelledBreak ∧
    (resume_run oracle (it :: rest) s).1.workflow_running = false ∧
    (resume_run oracle (it :: rest) s).1.paused = true ∧
    (resume_run oracle (it :: rest) s).1.current_step = s.current_step ∧
    (∀ m ∈ (resume_run oracle (it :: rest) s).2.1,
      msgStep m ≠ some (s.current_step + 1)) := by
  have hE := execute_step_in_range oracle s.current_step s ⟨h1, hle⟩
  rw [hres] at hE
  have hS1 := applyEffs_flags (oracle s.current_step s).effects s
  rcases hA : applyCtrls (applyEffs s (oracle s.current_step s).effects).1
      it.duringBroadcast with ⟨sa, msa⟩
  rcases hP : applyCtrls { sa with confirmation_event := false } pre
    with ⟨mid, msp⟩
  have hsnoc := applyCtrls_snoc pre Ctrl.stop
    { sa with confirmation_event := false }
  rw [hP] at hsnoc
  have hW : wait_for_confirmation s.current_step (some d)
      (applyEffs s (oracle s.current_step s).effects).1 it.duringBroadcast
      it.whileBlocked =
      ((applyCtrl mid Ctrl.stop).1,
       Msg.awaiting (msg_types s.current_step) s.current_step (some d) ::
         (msa ++ (msp ++ (applyCtrl mid Ctrl.stop).2)),
       WaitOutcome.cancelled) := by
    rw [hwb]
    have hev : (applyCtrl mid Ctrl.stop).1.confirmation_event = true := by
      simp [applyCtrl, handle_stop, send_log]
    have hrn : (applyCtrl mid Ctrl.stop).1.workflow_running = false := by
      simp [applyCtrl, handle_stop, send_log]
    simp only [wait_for_confirmation, hA, hsnoc, hev, hrn, if_true]
  have hloop := workflow_loop_cancel oracle it rest s _ _ _ _
    (some d) hrun hle hE hW
  have hSFr : (applyCtrl mid Ctrl.stop).1.workflow_running = false := by
    simp [applyCtrl, handle_stop, send_log]
  have hSFp : (applyCtrl mid Ctrl.stop).1.paused = true := by
    simp [applyCtrl, handle_stop, send_log]
  have hSFc : (applyCtrl mid Ctrl.stop).1.current_step = s.current_step := by
    have hm : mid.current_step = s.current_step := by
      have h2 := applyCtrls_no_restart_step pre
        { sa with confirmation_event := false } hpre
      rw [hP] at h2
      have h3 := applyCtrls_no_restart_step it.duringBroadcast
        (applyEffs s (oracle s.current_step s).effects).1 hdb
      rw [hA] at h3
      rw [h2]
      simp only []
      rw [h3]
      exact hS1.2.2.1
    simp [applyCtrl, handle_stop, send_log, hm]
  have hns : ¬ 10 < (applyCtrl mid Ctrl.stop).1.current_step := by
    rw [hSFc]
    omega
  have hpost := workflow_post_incomplete (applyCtrl mid Ctrl.stop).1
    hns hSFr
  have hrr := resume_run_eq oracle (it :: rest) s _ _ _ hloop
    (by simp) (by simp)
  rw [hpost] at hrr
  rw [hrr]
  refine ⟨rfl, hSFr, hSFp, hSFc, ?_⟩
  intro m hm
  simp only [List.append_nil, List.mem_append, List.map_map] at hm
  rcases hm with hm | hm
  · rw [List.mem_map] at hm
    obtain ⟨e, he, rfl⟩ := hm
    exact heff e he
  · rw [List.mem_cons] at hm
    rcases hm with rfl | hm
    · simp only [msgStep]
      intro hc
      rw [Option.some_inj] at hc
      omega
    · rcases List.mem_append.mp hm with hm' | hm'
      · have := applyCtrls_msgs_none it.duringBroadcast
          (applyEffs s (oracle s.current_step s).effects).1 m
        rw [hA] at this
        rw [this hm']
        simp
      · rcases List.mem_append.mp hm' with hm'' | hm''
        · have := applyCtrls_msgs_none pre
            { sa with confirmation_event := false } m
          rw [hP] at this
          rw [this hm'']
          simp
        · have := applyCtrl_msgs_none mid Ctrl.stop m hm''
          rw [this]
          simp

/-! ### C6 witness and C7 -/

/-- C6 witness: a concrete run stopped while waiting at step 1. -/
theorem stop_while_waiting_witness :
    (resume_run sampleOracle [⟨[], [Ctrl.stop]⟩] waitingState).2.2 =
      LoopExit.cancelledBreak ∧
    (resume_run sampleOracle [⟨[], [Ctrl.stop]⟩]
        waitingState).1.workflow_running = false ∧
    (resume_run sampleOracle [⟨[], [Ctrl.stop]⟩] waitingState).1.paused =
      true ∧
    (resume_run sampleOracle [⟨[], [Ctrl.stop]⟩] waitingState).1.current_step
      = 1 ∧
    (∀ m ∈ (resume_run sampleOracle [⟨[], [Ctrl.stop]⟩] waitingState).2.1,
      msgStep m ≠ some 2) :=
  stop_while_waiting sampleOracle ⟨[], [Ctrl.stop]⟩ [] waitingState
    [("step", "x")] [] rfl (by decide) (by decide) rfl rfl
    (by simp) (by simp) (by decide)

theorem find_overwrite (k : Int) (v : StepData) :
    ∀ m : List (Int × StepData), m.any (fun p => p.1 = k) = true →
      (m.map (fun p => if p.1 = k then (k, v) else p)).find?
          (fun p => p.1 = k) = some (k, v)
  | [], h => by simp at h
  | p :: ps, h => by
    by_cases hp : p.1 = k
    · simp only [List.map_cons, if_pos hp]
      rw [List.find?_cons_of_pos]
      simp
    · simp only [List.map_cons, if_neg hp]
      rw [List.find?_cons_of_neg]
      · refine find_overwrite k v ps ?_
        simpa [List.any_cons, hp] using h
      · simp [hp]

theorem find_none_of_any_false (k : Int) :
    ∀ m : List (Int × StepData), m.any (fun p => p.1 = k) = false →
      m.find? (fun p => p.1 = k) = none
  | [], _ => rfl
  | p :: ps, h => by
    simp only [List.any_cons, Bool.or_eq_false_iff] at h
    rw [List.find?_cons_of_neg]
    · exact find_none_of_any_false k ps h.2
    · simp only [h.1]
      simp

/-- Writing step `k`'s output into the step-output store overwrites any
prior entry for `k`: a later read of key `k` returns the new value. -/
theorem dictGet_dictSet (m : List (Int × StepData)) (k : Int)
    (v : StepData) : dictGet (dictSet m k v) k = some v := by
  unfold dictGet dictSet
  by_cases h : m.any (fun p => p.1 = k)
  · rw [if_pos h, find_overwrite k v m h]
    rfl
  · rw [if_neg h, List.find?_append,
      find_none_of_any_false k m (Bool.eq_false_iff.mpr h)]
    simp

/-- C7 counterexample: a `restart_step(1)` delivered while the engine is
waiting at step 1 does not cause step 1 to re-execute.  In the concrete
run below, step 1 broadcasts exactly one in-progress update (the claim
requires a second one after the restart); instead the loop advances and
executes step 2, and the run's final `current_step` is 2. -/
theorem restart_same_step_cex :
    ((run_workflow sampleOracle
        [⟨[], [Ctrl.restart 1]⟩, ⟨[], [Ctrl.stop]⟩] "demo requirement"
        WorkflowState.init).2.1.filter (isInProgressFor 1)).length = 1 ∧
    ((run_workflow sampleOracle
        [⟨[], [Ctrl.restart 1]⟩, ⟨[], [Ctrl.stop]⟩] "demo requirement"
        WorkflowState.init).2.1.filter (isInProgressFor 2)).length = 1 ∧
    (run_workflow sampleOracle
        [⟨[], [Ctrl.restart 1]⟩, ⟨[], [Ctrl.stop]⟩] "demo requirement"
        WorkflowState.init).1.current_step = 2 := by
  decide

/-- C7 amended: a `restart_step(k)` that releases the engine waiting at
step j with k ≠ j sets `current_step` to k, sets `running`, clears
`paused`, and the wait returns normally without incrementing, so the
loop's next iteration executes step k; when step k completes, writing
its output overwrites any prior entry for k.  (When k = j the loop
increments instead and step j is not re-executed, and a restart sent
after the run's task has exited only mutates the flags — no loop exists
to resume.) -/
theorem restart_redirects (oracle : StepOracle) (it it2 : IterSched)
    (rest : List IterSched) (s s2 : WorkflowState) (ms2 : List Msg)
    (d : StepData) (k : Int) (pre : List Ctrl) (w : WaitOutcome)
    (hrun : s.workflow_running = true) (h1 : 1 ≤ s.current_step)
    (hle : s.current_step ≤ 10)
    (hres : (oracle s.current_step s).result = Except.ok d)
    (hwb : it.whileBlocked = pre ++ [Ctrl.restart k])
    (hk : k ≠ s.current_step)
    (hW : wait_for_confirmation s.current_step (some d)
        (applyEffs s (oracle s.current_step s).effects).1 it.duringBroadcast
        it.whileBlocked = (s2, ms2, w)) :
    w = WaitOutcome.returned ∧
    s2.current_step = k ∧ s2.workflow_running = true ∧ s2.paused = false ∧
    workflow_loop oracle (it :: it2 :: rest) s =
      ((workflow_loop oracle (it2 :: rest) s2).1,
       (oracle s.current_step s).effects.map msgOfEff ++ ms2 ++
         (workflow_loop oracle (it2 :: rest) s2).2.1,
       (workflow_loop oracle (it2 :: rest) s2).2.2) ∧
    (∀ m d', dictGet (dictSet m k d') k = some d') := by
  have hE := execute_step_in_range oracle s.current_step s ⟨h1, hle⟩
  rw [hres] at hE
  rcases hA : applyCtrls (applyEffs s (oracle s.current_step s).effects).1
      it.duringBroadcast with ⟨sa, msa⟩
  rcases hP : applyCtrls { sa with confirmation_event := false } pre
    with ⟨mid, msp⟩
  have hsnoc := applyCtrls_snoc pre (Ctrl.restart k)
    { sa with confirmation_event := false }
  rw [hP] at hsnoc
  have hev : (applyCtrl mid (Ctrl.restart k)).1.confirmation_event = true := by
    simp [applyCtrl, handle_restart, send_log]
  have hrn : (applyCtrl mid (Ctrl.restart k)).1.workflow_running = true := by
    simp [applyCtrl, handle_restart, send_log]
  have hpa : (applyCtrl mid (Ctrl.restart k)).1.paused = false := by
    simp [applyCtrl, handle_restart, send_log]
  have hck : (applyCtrl mid (Ctrl.restart k)).1.current_step = k := by
    simp [applyCtrl, handle_restart, send_log]
  have hW' : wait_for_confirmation s.current_step (some d)
      (applyEffs s (oracle s.current_step s).effects).1 it.duringBroadcast
      it.whileBlocked =
      ((applyCtrl mid (Ctrl.restart k)).1,
       Msg.awaiting (msg_types s.current_step) s.current_step (some d) ::
         (msa ++ (msp ++ (applyCtrl mid (Ctrl.restart k)).2)),
       WaitOutcome.returned) := by
    rw [hwb]
    simp only [wait_for_confirmation, hA, hsnoc, hev, hrn, hpa,
      Bool.true_eq_false, Bool.false_eq_true, if_true, if_false]
  rw [hW'] at hW
  simp only [Prod.mk.injEq] at hW
  obtain ⟨h2', h3', h4'⟩ := hW
  subst h2'
  subst h3'
  subst h4'
  have hne : (applyCtrl mid (Ctrl.restart k)).1.current_step ≠
      s.current_step := by
    rw [hck]
    exact hk
  have hadv := workflow_loop_advance oracle it (it2 :: rest) s _ _ _ _
    (some d) hrun hle hE hW'
  simp only [if_neg hne] at hadv
  exact ⟨rfl, hck, hrn, hpa, hadv, fun m d' => dictGet_dictSet m k d'⟩

/-- C7 witness: the amended behavior at a concrete run waiting at step 1
and redirected to step 2. -/
theorem restart_redirects_witness :
    (wait_for_confirmation 1 (some [("step", "x")])
        (applyEffs waitingState (sampleOracle 1 waitingState).effects).1
        [] [Ctrl.restart 2]).2.2 = WaitOutcome.returned ∧
    (wait_for_confirmation 1 (some [("step", "x")])
        (applyEffs waitingState (sampleOracle 1 waitingState).effects).1
        [] [Ctrl.restart 2]).1.current_step = 2 ∧
    dictGet (dictSet [] 2 [("out", "y")]) 2 = some [("out", "y")] := by
  have h := restart_redirects sampleOracle ⟨[], [Ctrl.restart 2]⟩ ⟨[], []⟩ []
    waitingState
    (wait_for_confirmation 1 (some [("step", "x")])
      (applyEffs waitingState (sampleOracle 1 waitingState).effects).1
      [] [Ctrl.restart 2]).1
    (wait_for_confirmation 1 (some [("step", "x")])
      (applyEffs waitingState (sampleOracle 1 waitingState).effects).1
      [] [Ctrl.restart 2]).2.1
    [("step", "x")] 2 [] 
    (wait_for_confirmation 1 (some [("step", "x")])
      (applyEffs waitingState (sampleOracle 1 waitingState).effects).1
      [] [Ctrl.restart 2]).2.2
    rfl (by decide) (by decide) rfl rfl (by decide) rfl
  exact ⟨h.1, h.2.1, h.2.2.2.2.2 [] [("out", "y")]⟩

/-! ### C10 -/

/-- C10: when a run completes (the loop exits, other than by remaining
blocked, with `current_step > 10`), only the running flag and
`current_step` are reset: the requirement, step outputs and
modified-file records keep the finished run's values and the log merely
gains the completion entry; a subsequent submission is accepted without
touching the state; and the new run's initialization keeps the previous
run's step outputs, log and modified files — its steps can still read
every previous output. -/
theorem completion_keeps_outputs :
    (∀ (oracle : StepOracle) (sched : List IterSched) (s s1 : WorkflowState)
       (ms1 : List Msg) (ex : LoopExit),
       workflow_loop oracle sched s = (s1, ms1, ex) →
       ex ≠ LoopExit.parked → ex ≠ LoopExit.noSched →
       10 < s1.current_step →
       (resume_run oracle sched s).1.workflow_running = false ∧
       (resume_run oracle sched s).1.current_step = 0 ∧
       (resume_run oracle sched s).1.requirement = s1.requirement ∧
       (resume_run oracle sched s).1.step_data = s1.step_data ∧
       (resume_run oracle sched s).1.modified_files = s1.modified_files ∧
       (resume_run oracle sched s).1.activity_log = s1.activity_log ++
         [⟨"🎉 Workflow completed successfully!", "success"⟩]) ∧
    (∀ (s : WorkflowState) (text : String),
       s.workflow_running = false → ¬ text.length < 50 →
       submit_requirement s text = ⟨Except.ok (), s, true⟩) ∧
    (∀ (text : String) (s : WorkflowState),
       (run_workflow_init text s).step_data = s.step_data ∧
       (run_workflow_init text s).activity_log = s.activity_log ∧
       (run_workflow_init text s).modified_files = s.modified_files ∧
       (run_workflow_init text s).requirement = text ∧
       (∀ i, dictGet (run_workflow_init text s).step_data i =
         dictGet s.step_data i)) := by
  refine ⟨?_, ?_, ?_⟩
  · intro oracle sched s s1 ms1 ex h h1 h2 hgt
    have hrr := resume_run_eq oracle sched s s1 ms1 ex h h1 h2
    rw [workflow_post_complete s1 hgt] at hrr
    rw [hrr]
    exact ⟨rfl, rfl, rfl, rfl, rfl, rfl⟩
  · intro s text h hl
    simp [submit_requirement, h, hl]
  · intro text s
    unfold run_workflow_init
    dsimp only
    by_cases h0 : s.current_step = 0 <;> simp [h0]

/-- C10 witness: a concrete completed run, an accepted resubmission, and
the initialization of the follow-up run over a state holding a previous
output. -/
theorem completion_keeps_outputs_witness :
    ((resume_run sampleOracle [⟨[], [Ctrl.confirm]⟩]
        step10State).1.workflow_running = false ∧
     (resume_run sampleOracle [⟨[], [Ctrl.confirm]⟩]
        step10State).1.current_step = 0 ∧
     (resume_run sampleOracle [⟨[], [Ctrl.confirm]⟩]
        step10State).1.requirement =
       (workflow_loop sampleOracle [⟨[], [Ctrl.confirm]⟩]
          step10State).1.requirement ∧
     (resume_run sampleOracle [⟨[], [Ctrl.confirm]⟩]
        step10State).1.step_data =
       (workflow_loop sampleOracle [⟨[], [Ctrl.confirm]⟩]
          step10State).1.step_data ∧
     (resume_run sampleOracle [⟨[], [Ctrl.confirm]⟩]
        step10State).1.modified_files =
       (workflow_loop sampleOracle [⟨[], [Ctrl.confirm]⟩]
          step10State).1.modified_files ∧
     (resume_run sampleOracle [⟨[], [Ctrl.confirm]⟩]
        step10State).1.activity_log =
       (workflow_loop sampleOracle [⟨[], [Ctrl.confirm]⟩]
          step10State).1.activity_log ++
         [⟨"🎉 Workflow completed successfully!", "success"⟩]) ∧
    (submit_requirement
        { WorkflowState.init with step_data := [(1, [("step", "x")])] }
        "aaaaaaaaaaaaaaaaaaaaaaaaaaaaaaaaaaaaaaaaaaaaaaaaaaaaaa" =
      ⟨Except.ok (),
       { WorkflowState.init with step_data := [(1, [("step", "x")])] },
       true⟩) ∧
    ((run_workflow_init "demo"
        { WorkflowState.init with
            step_data := [(1, [("step", "x")])] }).step_data =
      [(1, [("step", "x")])] ∧
     dictGet (run_workflow_init "demo"
        { WorkflowState.init with
            step_data := [(1, [("step", "x")])] }).step_data 1 =
      dictGet [(1, [("step", "x")])] 1) := by
  refine ⟨?_, ?_, ?_⟩
  · exact completion_keeps_outputs.1 sampleOracle [⟨[], [Ctrl.confirm]⟩]
      step10State
      (workflow_loop sampleOracle [⟨[], [Ctrl.confirm]⟩] step10State).1
      (workflow_loop sampleOracle [⟨[], [Ctrl.confirm]⟩] step10State).2.1
      (workflow_loop sampleOracle [⟨[], [Ctrl.confirm]⟩] step10State).2.2
      rfl (by decide) (by decide) (by decide)
  · exact completion_keeps_outputs.2.1
      { WorkflowState.init with step_data := [(1, [("step", "x")])] }
      "aaaaaaaaaaaaaaaaaaaaaaaaaaaaaaaaaaaaaaaaaaaaaaaaaaaaaa"
      rfl (by decide)
  · have h := completion_keeps_outputs.2.2 "demo"
      { WorkflowState.init with step_data := [(1, [("step", "x")])] }
    exact ⟨h.1, h.2.2.2.2 1⟩
